import Mathlib

/-!
Verification of the pyv4l2 media-controller core (`pyv4l2/media.py`):
the topology object model, the graph resolver (`_finalize` pass), the
link controller (`MediaLink._setup`), the raw topology reader
(`MediaDevice.__read_topology`) and the device-handle descriptor
lifecycle (`MediaDevice.__init__`).

Raw kernel records are modelled as Lean structures over `Nat`; the
Python object graph (objects with identity, wired by a finalize pass
that raises on malformed topologies) is modelled by pure accessor
functions over the topology plus an `Except`-valued resolver.  Python
object identity is modelled by the position of the wrapped raw record
in its kind array (`List.enum`).
-/

namespace PyV4L2

/-- Kernel media uapi flag: a link's enabled bit (`MEDIA_LNK_FL_ENABLED`). -/
def MEDIA_LNK_FL_ENABLED : Nat := 1

/-- Kernel media uapi flag: a link's immutable bit (`MEDIA_LNK_FL_IMMUTABLE`). -/
def MEDIA_LNK_FL_IMMUTABLE : Nat := 2

/-- Kernel media uapi flag: pad is a sink (`MEDIA_PAD_FL_SINK`). -/
def MEDIA_PAD_FL_SINK : Nat := 1

/-- Kernel media uapi flag: pad is a source (`MEDIA_PAD_FL_SOURCE`). -/
def MEDIA_PAD_FL_SOURCE : Nat := 2

/-- A raw `media_v2_entity` record as consumed by `MediaEntity.__init__`. -/
structure RawEntity where
  id : Nat
  name : String
  function : Nat
  flags : Nat
deriving DecidableEq, Repr

/-- A raw `media_v2_interface` record as consumed by `MediaInterface.__init__`
(the resolved `dev_path` is an external collaborator's concern and carries no
graph structure, so only the record fields are modelled). -/
structure RawInterface where
  id : Nat
  intf_type : Nat
  major : Nat
  minor : Nat
deriving DecidableEq, Repr

/-- A raw `media_v2_pad` record as consumed by `MediaPad.__init__`. -/
structure RawPad where
  id : Nat
  entity_id : Nat
  index : Nat
  flags : Nat
deriving DecidableEq, Repr

/-- A raw `media_v2_link` record as consumed by `MediaLink.__init__`. -/
structure RawLink where
  id : Nat
  source_id : Nat
  sink_id : Nat
  flags : Nat
deriving DecidableEq, Repr

/-- The four parallel raw record arrays of one topology snapshot
(`MediaTopology`). -/
structure Topology where
  entities : List RawEntity
  interfaces : List RawInterface
  pads : List RawPad
  links : List RawLink
deriving DecidableEq, Repr

/-- One constructed `MediaObject` wrapper, tagged by concrete kind
(`MediaEntity` / `MediaInterface` / `MediaPad` / `MediaLink`). -/
inductive MediaObject where
  | entity : RawEntity → MediaObject
  | iface : RawInterface → MediaObject
  | pad : RawPad → MediaObject
  | link : RawLink → MediaObject
deriving DecidableEq, Repr

/-- `MediaObject.id`: the kernel-assigned id of the wrapped record. -/
def MediaObject.id : MediaObject → Nat
  | .entity e => e.id
  | .iface i => i.id
  | .pad p => p.id
  | .link l => l.id

/-- `MediaDevice.objects`: all wrappers, in construction order
(entities, then interfaces, then pads, then links). -/
def objects (t : Topology) : List MediaObject :=
  t.entities.map .entity ++ t.interfaces.map .iface
    ++ t.pads.map .pad ++ t.links.map .link

/-- `MediaDevice.find_id`: the first object whose id matches, else `none`. -/
def find_id (t : Topology) (i : Nat) : Option MediaObject :=
  (objects t).find? (fun o => o.id == i)

/-- `MediaObject._finalize`: the object's incident links — every link whose
`source_id` or `sink_id` equals the object's id. -/
def incidentLinks (t : Topology) (i : Nat) : List RawLink :=
  t.links.filter (fun l => i == l.source_id || i == l.sink_id)

/-- `MediaEntity._finalize` pad scan: the pads whose `entity_id` equals the
entity's id, each tagged with its position in the raw pad array (the
position models Python object identity). -/
def entPads (t : Topology) (eid : Nat) : List (Nat × RawPad) :=
  t.pads.enum.filter (fun ip => ip.2.entity_id == eid)

/-- `MediaEntity._finalize` interface scan: for each incident link of the
entity, look up both endpoint ids via `find_id` and keep the results that
are `MediaInterface` objects, in scan order. -/
def entityIfaces (t : Topology) (eid : Nat) : List RawInterface :=
  ((incidentLinks t eid).flatMap (fun l => [l.source_id, l.sink_id])).filterMap
    (fun i => match find_id t i with
      | some (.iface x) => some x
      | _ => none)

/-- `MediaPad._finalize` entity lookup: the first entity (with its position
in the raw entity array) whose id equals the pad's `entity_id`; the Python
`next(...)` raises `StopIteration` when this is `none`. -/
def findEntity (t : Topology) (eid : Nat) : Option (Nat × RawEntity) :=
  t.entities.enum.find? (fun je => je.2.id == eid)

/-- A finalized `MediaEntity`: raw record, incident links, owned pads and
the at-most-one attached interface. -/
structure ResEntity where
  raw : RawEntity
  links : List RawLink
  pads : List (Nat × RawPad)
  interface : Option RawInterface
deriving DecidableEq, Repr

/-- A finalized `MediaInterface`: raw record and incident links. -/
structure ResInterface where
  raw : RawInterface
  links : List RawLink
deriving DecidableEq, Repr

/-- A finalized `MediaPad`: position in the raw pad array (object
identity), raw record, incident links, and the owning entity (with its
position in the raw entity array). -/
structure ResPad where
  idx : Nat
  raw : RawPad
  links : List RawLink
  entity : Nat × RawEntity
deriving DecidableEq, Repr

/-- A finalized `MediaLink`: raw record, incident links, and the resolved
source and sink objects. -/
structure ResLink where
  raw : RawLink
  links : List RawLink
  source : MediaObject
  sink : MediaObject
deriving DecidableEq, Repr

/-- `MediaEntity._finalize`: computes incident links and owned pads, scans
for attached interfaces; two or more interface endpoints raise
`RuntimeError('Multiple interfaces for entity')`, one is stored, zero
leaves the attribute absent. -/
def finalizeEntity (t : Topology) (e : RawEntity) : Except String ResEntity :=
  let ifaces := entityIfaces t e.id
  if ifaces.length > 1 then
    .error "Multiple interfaces for entity"
  else
    .ok { raw := e, links := incidentLinks t e.id, pads := entPads t e.id,
          interface := ifaces.head? }

/-- `MediaInterface._finalize`: only the shared incident-link computation. -/
def finalizeInterface (t : Topology) (i : RawInterface) : Except String ResInterface :=
  .ok { raw := i, links := incidentLinks t i.id }

/-- `MediaPad._finalize`: resolves the owning entity by `entity_id`; the
`next(...)` over entities raises `StopIteration` when no entity matches. -/
def finalizePad (t : Topology) : Nat × RawPad → Except String ResPad
  | (i, p) =>
    match findEntity t p.entity_id with
    | none => .error "StopIteration"
    | some je => .ok { idx := i, raw := p, links := incidentLinks t p.id,
                       entity := je }

/-- `MediaLink._finalize`: resolves `source` and `sink` by id over all
objects; the `next(...)` raises `StopIteration` when either is absent. -/
def finalizeLink (t : Topology) (l : RawLink) : Except String ResLink :=
  match find_id t l.source_id with
  | none => .error "StopIteration"
  | some s =>
    match find_id t l.sink_id with
    | none => .error "StopIteration"
    | some k => .ok { raw := l, links := incidentLinks t l.id, source := s, sink := k }

/-- Error-propagating map: runs `f` left to right and stops at the first
error, as the `for o in self.objects: o._finalize()` loop does. -/
def mapE (f : α → Except ε β) : List α → Except ε (List β)
  | [] => .ok []
  | x :: xs =>
    match f x with
    | .error e => .error e
    | .ok y =>
      match mapE f xs with
      | .error e => .error e
      | .ok ys => .ok (y :: ys)

/-- The fully resolved graph. -/
structure Graph where
  entities : List ResEntity
  interfaces : List ResInterface
  pads : List ResPad
  links : List ResLink
deriving DecidableEq, Repr

/-- `MediaDevice.__read_topology` finalize pass: finalizes every object in
construction order; any raise aborts resolution and no graph is produced. -/
def resolve (t : Topology) : Except String Graph :=
  match mapE (finalizeEntity t) t.entities with
  | .error e => .error e
  | .ok es =>
    match mapE (finalizeInterface t) t.interfaces with
    | .error e => .error e
    | .ok is =>
      match mapE (finalizePad t) t.pads.enum with
      | .error e => .error e
      | .ok ps =>
        match mapE (finalizeLink t) t.links with
        | .error e => .error e
        | .ok ls => .ok { entities := es, interfaces := is, pads := ps, links := ls }

/-! Link controller (`MediaLink.source_pad` / `sink_pad` / `enable` /
`disable` / `_setup`).  The typed accessors and `_setup` are modelled as
accessor functions over the topology: `self.source` is the object
`find_id` resolves for `source_id`, and `self.source_pad.entity` is the
entity `MediaPad._finalize` resolved for that pad. -/

/-- `MediaLink.source_pad`: the resolved source object if it is a
`MediaPad`, else `RuntimeError('Source is not a MediaPad')`. -/
def linkSourcePad (t : Topology) (l : RawLink) : Except String RawPad :=
  match find_id t l.source_id with
  | some (.pad p) => .ok p
  | _ => .error "Source is not a MediaPad"

/-- `MediaLink.sink_pad`: the resolved sink object if it is a `MediaPad`,
else `RuntimeError('Sink is not a MediaPad')`. -/
def linkSinkPad (t : Topology) (l : RawLink) : Except String RawPad :=
  match find_id t l.sink_id with
  | some (.pad p) => .ok p
  | _ => .error "Sink is not a MediaPad"

/-- The `media_link_desc` payload `MediaLink._setup` sends to the
`MEDIA_IOC_SETUP_LINK` ioctl. -/
structure LinkDesc where
  source_entity : Nat
  source_index : Nat
  sink_entity : Nat
  sink_index : Nat
  flags : Nat
deriving DecidableEq, Repr

/-- Outcome of one `MediaLink._setup` call: whether it raised, the link's
in-memory `flags` afterwards, and the ioctl payloads issued. -/
structure SetupResult where
  raised : Option String
  flags : Nat
  sent : List LinkDesc
deriving DecidableEq, Repr

/-- `MediaLink._setup`: builds the descriptor from the typed pad accessors
(source first, then sink — a type mismatch raises before any ioctl),
issues the single `MEDIA_IOC_SETUP_LINK` ioctl (`kernelOk` models its
outcome), and on success overwrites the in-memory `flags` with the
requested word; a raise leaves `flags` at `cur`. -/
def setup (t : Topology) (l : RawLink) (cur reqFlags : Nat) (kernelOk : Bool) :
    SetupResult :=
  match linkSourcePad t l with
  | .error e => ⟨some e, cur, []⟩
  | .ok sp =>
    match findEntity t sp.entity_id with
    | none => ⟨some "StopIteration", cur, []⟩
    | some se =>
      match linkSinkPad t l with
      | .error e => ⟨some e, cur, []⟩
      | .ok kp =>
        match findEntity t kp.entity_id with
        | none => ⟨some "StopIteration", cur, []⟩
        | some ke =>
          let desc : LinkDesc :=
            ⟨se.2.id, sp.index, ke.2.id, kp.index, reqFlags⟩
          if kernelOk then ⟨none, reqFlags, [desc]⟩
          else ⟨some "OSError", cur, [desc]⟩

/-- `MediaLink.enable` / `MediaLink.disable`: `_setup` with
`MEDIA_LNK_FL_ENABLED` or `0`. -/
def setEnabled (t : Topology) (l : RawLink) (cur : Nat) (en : Bool)
    (kernelOk : Bool) : SetupResult :=
  setup t l cur (if en then MEDIA_LNK_FL_ENABLED else 0) kernelOk

/-- `MediaEntity.pad_links`: the incident links of each of the entity's
pads, flattened in pad order. -/
def padLinks (t : Topology) (eid : Nat) : List RawLink :=
  (entPads t eid).flatMap (fun ip => incidentLinks t ip.2.id)

/-! Raw topology reader (`MediaDevice.__read_topology`, two-phase ioctl).
The sizing call returns four counts; the code allocates arrays of exactly
those sizes and reissues the query; whatever the fill call delivers lands
in those fixed-size arrays (extra records are dropped, missing records
leave zeroed slots) and no count comparison is performed. -/

/-- Counts returned by the sizing `MEDIA_IOC_G_TOPOLOGY` call. -/
structure TopoSizes where
  num_entities : Nat
  num_interfaces : Nat
  num_pads : Nat
  num_links : Nat
deriving DecidableEq, Repr

/-- A ctypes array of length `alloc` after the fill call delivered
`recs`: delivered records up to capacity, zero-initialized slots beyond. -/
def fillArray (alloc : Nat) (zero : α) (recs : List α) : List α :=
  recs.take alloc ++ List.replicate (alloc - recs.length) zero

/-- Zero-initialized `media_v2_entity`. -/
def zeroEntity : RawEntity := ⟨0, "", 0, 0⟩

/-- Zero-initialized `media_v2_interface`. -/
def zeroInterface : RawInterface := ⟨0, 0, 0, 0⟩

/-- Zero-initialized `media_v2_pad`. -/
def zeroPad : RawPad := ⟨0, 0, 0, 0⟩

/-- Zero-initialized `media_v2_link`. -/
def zeroLink : RawLink := ⟨0, 0, 0, 0⟩

/-- `MediaDevice.__read_topology`, up to object construction: sizes from
the first call, records from the second; the counts of the two calls are
never compared, so the read itself cannot fail once both ioctls return. -/
def readTopology (sizing : TopoSizes) (fill : Topology) : Except String Topology :=
  .ok { entities := fillArray sizing.num_entities zeroEntity fill.entities,
        interfaces := fillArray sizing.num_interfaces zeroInterface fill.interfaces,
        pads := fillArray sizing.num_pads zeroPad fill.pads,
        links := fillArray sizing.num_links zeroLink fill.links }

/-! Device-handle descriptor lifecycle (`MediaDevice.__init__`).
`__init__` opens the descriptor, then runs `__read_device_info` and
`__read_topology` (either may raise), and only after both succeed
registers `weakref.finalize(self, os.close, self.fd)` — the sole closer
of the descriptor. -/

/-- A file-descriptor event on the device handle's own descriptor. -/
inductive FdEvent where
  | acquired
  | released
deriving DecidableEq, Repr

/-- Outcome of `MediaDevice.__init__` for given outcomes of the
device-info and topology ioctl phases: whether construction succeeded,
the descriptor events during construction, and whether the
`weakref.finalize` closer was registered. -/
structure InitOutcome where
  ok : Bool
  events : List FdEvent
  finalizerRegistered : Bool
deriving DecidableEq, Repr

/-- `MediaDevice.__init__` (with `key = 'path'`): open the node, read
device info, read topology, then register the close finalizer; an
exception in either read propagates before the finalizer is registered. -/
def mediaDeviceInit (infoOk topoOk : Bool) : InitOutcome :=
  let ev := [FdEvent.acquired]
  if !infoOk then ⟨false, ev, false⟩
  else if !topoOk then ⟨false, ev, false⟩
  else ⟨true, ev, true⟩

/-- Total number of times the handle's descriptor is closed over its whole
lifetime: closes during construction plus the registered finalizer's
close at teardown. -/
def lifetimeCloses (o : InitOutcome) : Nat :=
  o.events.count FdEvent.released + (if o.finalizerRegistered then 1 else 0)

/-- Total number of times the handle's descriptor is opened. -/
def lifetimeOpens (o : InitOutcome) : Nat :=
  o.events.count FdEvent.acquired

/-! Concrete topologies used to instantiate the theorems. -/

/-- Demo entity 0 (id 1). -/
def demoE0 : RawEntity := ⟨1, "a", 0, 0⟩

/-- Demo entity 1 (id 2). -/
def demoE1 : RawEntity := ⟨2, "b", 0, 0⟩

/-- Demo pad 0: id 3, owned by entity 1, source. -/
def demoP0 : RawPad := ⟨3, 1, 0, MEDIA_PAD_FL_SOURCE⟩

/-- Demo pad 1: id 4, owned by entity 2, sink. -/
def demoP1 : RawPad := ⟨4, 2, 0, MEDIA_PAD_FL_SINK⟩

/-- Demo link: id 5, pad 3 → pad 4. -/
def demoL0 : RawLink := ⟨5, 3, 4, 0⟩

/-- The spec's scenario topology: 2 entities, 2 pads (source on the first
entity, sink on the second), 1 pad-to-pad link, 0 interfaces. -/
def demoTopo : Topology :=
  { entities := [demoE0, demoE1], interfaces := [],
    pads := [demoP0, demoP1], links := [demoL0] }

/-- A topology whose only link references a nonexistent sink id 99. -/
def danglingTopo : Topology :=
  { entities := [demoE0, demoE1], interfaces := [],
    pads := [demoP0, demoP1], links := [⟨5, 3, 99, 0⟩] }

/-- A topology in which two interface links attach two distinct
interfaces (ids 10 and 11) to the same entity (id 1). -/
def twoIfaceTopo : Topology :=
  { entities := [⟨1, "a", 0, 0⟩], interfaces := [⟨10, 0, 81, 0⟩, ⟨11, 0, 81, 1⟩],
    pads := [], links := [⟨20, 10, 1, 0⟩, ⟨21, 11, 1, 0⟩] }

/-- A topology in which one interface link attaches interface 10 to
entity 1. -/
def oneIfaceTopo : Topology :=
  { entities := [⟨1, "a", 0, 0⟩], interfaces := [⟨10, 0, 81, 0⟩],
    pads := [], links := [⟨20, 10, 1, 0⟩] }

/-- The finalized pad 0 of `demoTopo`. -/
def demoResPad0 : ResPad :=
  { idx := 0, raw := demoP0, links := [demoL0], entity := (0, demoE0) }

/-- The finalized pad 1 of `demoTopo`. -/
def demoResPad1 : ResPad :=
  { idx := 1, raw := demoP1, links := [demoL0], entity := (1, demoE1) }

/-- The resolved graph of `demoTopo`. -/
def demoGraph : Graph :=
  { entities :=
      [{ raw := demoE0, links := [], pads := [(0, demoP0)], interface := none },
       { raw := demoE1, links := [], pads := [(1, demoP1)], interface := none }],
    interfaces := [],
    pads := [demoResPad0, demoResPad1],
    links := [{ raw := demoL0, links := [], source := .pad demoP0,
                sink := .pad demoP1 }] }

/-- The resolved graph of `oneIfaceTopo`. -/
def oneIfaceGraph : Graph :=
  { entities :=
      [{ raw := ⟨1, "a", 0, 0⟩, links := [⟨20, 10, 1, 0⟩], pads := [],
         interface := some ⟨10, 0, 81, 0⟩ }],
    interfaces := [{ raw := ⟨10, 0, 81, 0⟩, links := [⟨20, 10, 1, 0⟩] }],
    pads := [],
    links := [{ raw := ⟨20, 10, 1, 0⟩, links := [],
                source := .iface ⟨10, 0, 81, 0⟩, sink := .entity ⟨1, "a", 0, 0⟩ }] }

/-- A fill-call result delivering only 2 link records while the sizing
call reported 3 (the spec's hot-plug mismatch scenario). -/
def fillTwoLinks : Topology :=
  { entities := [demoE0, demoE1], interfaces := [],
    pads := [demoP0, demoP1], links := [demoL0, ⟨6, 4, 3, 0⟩] }

/-! Helper lemmas about `mapE`, list membership and `enum`. -/

theorem mapE_ok_forall {α β ε : Type _} {f : α → Except ε β} :
    ∀ {xs : List α} {ys : List β}, mapE f xs = .ok ys →
      ∀ x ∈ xs, ∃ y, f x = .ok y := by
  intro xs
  induction xs with
  | nil => intro ys _ x hx; cases hx
  | cons a as ih =>
    intro ys h x hx
    cases hfa : f a with
    | error e => simp only [mapE, hfa] at h; cases h
    | ok y =>
      cases hrec : mapE f as with
      | error e => simp only [mapE, hfa, hrec] at h; cases h
      | ok ys2 =>
        cases hx with
        | head => exact ⟨y, hfa⟩
        | tail _ hmem => exact ih hrec x hmem

theorem mapE_ok_rev {α β ε : Type _} {f : α → Except ε β} :
    ∀ {xs : List α} {ys : List β}, mapE f xs = .ok ys →
      ∀ y ∈ ys, ∃ x ∈ xs, f x = .ok y := by
  intro xs
  induction xs with
  | nil =>
    intro ys h y hy
    simp only [mapE] at h
    cases h
    cases hy
  | cons a as ih =>
    intro ys h y hy
    cases hfa : f a with
    | error e => simp only [mapE, hfa] at h; cases h
    | ok y2 =>
      cases hrec : mapE f as with
      | error e => simp only [mapE, hfa, hrec] at h; cases h
      | ok ys2 =>
        simp only [mapE, hfa, hrec, Except.ok.injEq] at h
        subst h
        cases hy with
        | head => exact ⟨a, List.mem_cons_self a as, hfa⟩
        | tail _ hmem =>
          obtain ⟨x, hx, hfx⟩ := ih hrec y hmem
          exact ⟨x, List.mem_cons_of_mem a hx, hfx⟩

theorem mapE_ok_get {α β ε : Type _} {f : α → Except ε β} :
    ∀ {xs : List α} {ys : List β}, mapE f xs = .ok ys →
      xs.length = ys.length ∧
      ∀ (j : Nat) (h1 : j < xs.length) (h2 : j < ys.length),
        f xs[j] = .ok ys[j] := by
  intro xs
  induction xs with
  | nil =>
    intro ys h
    simp only [mapE] at h
    cases h
    exact ⟨rfl, by intro j h1 _; cases h1⟩
  | cons a as ih =>
    intro ys h
    cases hfa : f a with
    | error e => simp only [mapE, hfa] at h; cases h
    | ok y =>
      cases hrec : mapE f as with
      | error e => simp only [mapE, hfa, hrec] at h; cases h
      | ok ys2 =>
        simp only [mapE, hfa, hrec, Except.ok.injEq] at h
        subst h
        obtain ⟨hlen, hpt⟩ := ih hrec
        refine ⟨by simp [hlen], ?_⟩
        intro j h1 h2
        cases j with
        | zero => simpa using hfa
        | succ n =>
          simp only [List.getElem_cons_succ]
          exact hpt n (by simpa using h1) (by simpa using h2)

theorem resolve_ok_parts {t : Topology} {g : Graph} (h : resolve t = .ok g) :
    mapE (finalizeEntity t) t.entities = .ok g.entities ∧
    mapE (finalizeInterface t) t.interfaces = .ok g.interfaces ∧
    mapE (finalizePad t) t.pads.enum = .ok g.pads ∧
    mapE (finalizeLink t) t.links = .ok g.links := by
  unfold resolve at h
  cases h1 : mapE (finalizeEntity t) t.entities with
  | error e => rw [h1] at h; cases h
  | ok es =>
    rw [h1] at h
    cases h2 : mapE (finalizeInterface t) t.interfaces with
    | error e => rw [h2] at h; cases h
    | ok is =>
      rw [h2] at h
      cases h3 : mapE (finalizePad t) t.pads.enum with
      | error e => rw [h3] at h; cases h
      | ok ps =>
        rw [h3] at h
        cases h4 : mapE (finalizeLink t) t.links with
        | error e => rw [h4] at h; cases h
        | ok ls =>
          rw [h4] at h
          cases h
          exact ⟨rfl, rfl, rfl, rfl⟩

theorem entity_mem_objects {t : Topology} {e : RawEntity} (h : e ∈ t.entities) :
    MediaObject.entity e ∈ objects t :=
  List.mem_append_left _
    (List.mem_append_left _ (List.mem_append_left _ (List.mem_map_of_mem _ h)))

theorem pad_mem_of_mem_objects {t : Topology} {p : RawPad}
    (h : MediaObject.pad p ∈ objects t) : p ∈ t.pads := by
  simp only [objects, List.mem_append, List.mem_map] at h
  rcases h with ((⟨x, _, he⟩ | ⟨x, _, he⟩) | ⟨x, hx, he⟩) | ⟨x, _, he⟩
  · cases he
  · cases he
  · cases he; exact hx
  · cases he

theorem find_id_some {t : Topology} {i : Nat} {o : MediaObject}
    (h : find_id t i = some o) : o ∈ objects t ∧ o.id = i := by
  refine ⟨List.mem_of_find?_eq_some h, ?_⟩
  have hp := List.find?_some h
  simpa using hp

theorem mem_enum_of_mem {α : Type _} {l : List α} {a : α} (h : a ∈ l) :
    ∃ i, (i, a) ∈ l.enum := by
  have h2 : a ∈ l.enum.map Prod.snd := by rw [List.enum_map_snd]; exact h
  rcases List.mem_map.mp h2 with ⟨⟨i, b⟩, hmem, hb⟩
  cases hb
  exact ⟨i, hmem⟩

theorem enum_nodup (l : List α) : l.enum.Nodup :=
  List.Nodup.of_map Prod.fst
    (by rw [List.enum_map_fst]; exact List.nodup_range _)

theorem findEntity_some {t : Topology} {eid j : Nat} {re : RawEntity}
    (h : findEntity t eid = some (j, re)) :
    (j, re) ∈ t.entities.enum ∧ re.id = eid := by
  refine ⟨List.mem_of_find?_eq_some h, ?_⟩
  have hp := List.find?_some h
  simpa using hp

theorem count_eq_one_of_nodup_mem {α : Type _} [BEq α] [LawfulBEq α]
    {l : List α} {a : α} (hnd : l.Nodup) (h : a ∈ l) : l.count a = 1 := by
  induction l with
  | nil => cases h
  | cons b l ih =>
    rw [List.count_cons]
    rcases List.mem_cons.mp h with rfl | hmem
    · have hz : l.count a = 0 :=
        List.count_eq_zero.mpr (List.nodup_cons.mp hnd).1
      simp [hz]
    · have hne : ¬(b == a) = true := by
        intro hb
        have hba : b = a := eq_of_beq hb
        subst hba
        exact (List.nodup_cons.mp hnd).1 hmem
      rw [ih (List.nodup_cons.mp hnd).2 hmem]
      simp [hne]

theorem resolved_pad_has_entity {t : Topology} {g : Graph}
    (hg : resolve t = .ok g) {p : RawPad} (hp : p ∈ t.pads) :
    ∃ je, findEntity t p.entity_id = some je := by
  obtain ⟨_, _, h3, _⟩ := resolve_ok_parts hg
  obtain ⟨i, hi⟩ := mem_enum_of_mem hp
  obtain ⟨r, hr⟩ := mapE_ok_forall h3 (i, p) hi
  cases hfe : findEntity t p.entity_id with
  | none => simp only [finalizePad, hfe] at hr; cases hr
  | some je => exact ⟨je, rfl⟩


/-! Claim theorems. -/

/-- C1: for every topology snapshot, if any ID referenced by a pad or a
link (a pad's `entity_id`, a link's `source_id` or `sink_id`) does not
resolve to an object with that ID in the same snapshot, graph resolution
raises a fatal construction error and no resolved graph is exposed to
the caller. -/
theorem C1_unresolved_reference_fatal (t : Topology)
    (h : (∃ p ∈ t.pads, ∀ o ∈ objects t, o.id ≠ p.entity_id) ∨
         (∃ l ∈ t.links, (∀ o ∈ objects t, o.id ≠ l.source_id) ∨
                         (∀ o ∈ objects t, o.id ≠ l.sink_id))) :
    ∀ g : Graph, resolve t ≠ .ok g := by
  intro g hg
  obtain ⟨h1, h2, h3, h4⟩ := resolve_ok_parts hg
  rcases h with ⟨p, hp, hnone⟩ | ⟨l, hl, hnone⟩
  · obtain ⟨i, hienum⟩ := mem_enum_of_mem hp
    obtain ⟨r, hr⟩ := mapE_ok_forall h3 (i, p) hienum
    cases hfe : findEntity t p.entity_id with
    | none => simp only [finalizePad, hfe] at hr; cases hr
    | some je =>
      obtain ⟨j, re⟩ := je
      obtain ⟨hje, hid⟩ := findEntity_some hfe
      have hre : re ∈ t.entities := by
        have hm := List.mem_map_of_mem Prod.snd hje
        rwa [List.enum_map_snd] at hm
      exact hnone (MediaObject.entity re) (entity_mem_objects hre) hid
  · obtain ⟨r, hr⟩ := mapE_ok_forall h4 l hl
    rcases hnone with hnone | hnone
    · cases hfs : find_id t l.source_id with
      | none => simp only [finalizeLink, hfs] at hr; cases hr
      | some o =>
        obtain ⟨ho, hoid⟩ := find_id_some hfs
        exact hnone o ho hoid
    · cases hfk : find_id t l.sink_id with
      | none =>
        cases hfs : find_id t l.source_id with
        | none => simp only [finalizeLink, hfs] at hr; cases hr
        | some o => simp only [finalizeLink, hfs, hfk] at hr; cases hr
      | some o =>
        obtain ⟨ho, hoid⟩ := find_id_some hfk
        exact hnone o ho hoid

/-- Witness for C1: the topology whose only link's `sink_id` (99) is
dangling fails to resolve. -/
theorem C1_witness : resolve danglingTopo ≠ .ok demoGraph :=
  C1_unresolved_reference_fatal danglingTopo
    (Or.inr ⟨⟨5, 3, 99, 0⟩, by decide, Or.inr (by decide)⟩) demoGraph

/-- C2: for every entity of a topology snapshot, the resolver scans the
entity's incident links for endpoints that are `MediaInterface` objects:
two or more interface endpoints make resolution of the snapshot fail
fatally; exactly one becomes the entity's interface; zero leaves the
interface reference absent and the entity finalizes successfully. -/
theorem C2_entity_interface_resolution (t : Topology) (e : RawEntity)
    (he : e ∈ t.entities) :
    (2 ≤ (entityIfaces t e.id).length → ∀ g : Graph, resolve t ≠ .ok g) ∧
    (∀ i, entityIfaces t e.id = [i] →
      finalizeEntity t e =
        .ok ⟨e, incidentLinks t e.id, entPads t e.id, some i⟩) ∧
    (entityIfaces t e.id = [] →
      finalizeEntity t e =
        .ok ⟨e, incidentLinks t e.id, entPads t e.id, none⟩) := by
  refine ⟨?_, ?_, ?_⟩
  · intro hlen g hg
    obtain ⟨h1, _, _, _⟩ := resolve_ok_parts hg
    obtain ⟨r, hr⟩ := mapE_ok_forall h1 e he
    simp only [finalizeEntity] at hr
    rw [if_pos (by omega)] at hr
    cases hr
  · intro i hi
    simp [finalizeEntity, hi]
  · intro hi
    simp [finalizeEntity, hi]

/-- Witness for C2: two interfaces on entity 1 of `twoIfaceTopo` abort
resolution; the single interface of `oneIfaceTopo` is stored; the
interface-free `demoTopo` entity finalizes with an absent interface. -/
theorem C2_witness :
    (resolve twoIfaceTopo ≠ .ok demoGraph) ∧
    finalizeEntity oneIfaceTopo ⟨1, "a", 0, 0⟩ =
      .ok ⟨⟨1, "a", 0, 0⟩, [⟨20, 10, 1, 0⟩], [], some ⟨10, 0, 81, 0⟩⟩ ∧
    finalizeEntity demoTopo demoE0 =
      .ok ⟨demoE0, [], [(0, demoP0)], none⟩ := by
  refine ⟨?_, ?_, ?_⟩
  · exact (C2_entity_interface_resolution twoIfaceTopo ⟨1, "a", 0, 0⟩
      (by decide)).1 (by decide) demoGraph
  · exact (C2_entity_interface_resolution oneIfaceTopo ⟨1, "a", 0, 0⟩
      (by decide)).2.1 ⟨10, 0, 81, 0⟩ (by decide)
  · exact (C2_entity_interface_resolution demoTopo demoE0
      (by decide)).2.2 (by decide)

/-- C3: in every successfully resolved graph, every pad's owning-entity
reference is present (it names an entity slot of the snapshot), and the
`pads` list of that owning entity contains that pad exactly once. -/
theorem C3_pad_ownership (t : Topology) (g : Graph) (hg : resolve t = .ok g)
    (p : ResPad) (hp : p ∈ g.pads) :
    ∃ j re, p.entity = (j, re) ∧
      ∃ hj : j < g.entities.length,
        (g.entities[j]).raw = re ∧
        (g.entities[j]).pads.count (p.idx, p.raw) = 1 := by
  obtain ⟨h1, _, h3, _⟩ := resolve_ok_parts hg
  obtain ⟨ip, hip, hfp⟩ := mapE_ok_rev h3 p hp
  obtain ⟨i, praw⟩ := ip
  cases hfe : findEntity t praw.entity_id with
  | none => simp only [finalizePad, hfe] at hfp; cases hfp
  | some je =>
    obtain ⟨j, re⟩ := je
    simp only [finalizePad, hfe, Except.ok.injEq] at hfp
    subst hfp
    obtain ⟨hje, hid⟩ := findEntity_some hfe
    refine ⟨j, re, rfl, ?_⟩
    have hget := List.mk_mem_enum_iff_getElem?.mp hje
    obtain ⟨hjt, hjv⟩ := List.getElem?_eq_some.mp hget
    obtain ⟨hlen, hpt⟩ := mapE_ok_get h1
    have hjg : j < g.entities.length := hlen ▸ hjt
    refine ⟨hjg, ?_⟩
    have hfin := hpt j hjt hjg
    rw [hjv] at hfin
    simp only [finalizeEntity] at hfin
    by_cases hgt : (entityIfaces t re.id).length > 1
    · rw [if_pos hgt] at hfin; cases hfin
    · rw [if_neg hgt] at hfin
      injection hfin with hfin
      rw [← hfin]
      refine ⟨rfl, ?_⟩
      show (entPads t re.id).count (i, praw) = 1
      have hmemf : (i, praw) ∈ entPads t re.id := by
        simp only [entPads, List.mem_filter]
        exact ⟨hip, by simp [hid]⟩
      have hnd : (entPads t re.id).Nodup :=
        List.Nodup.filter _ (enum_nodup t.pads)
      exact count_eq_one_of_nodup_mem hnd hmemf

/-- Witness for C3: the first resolved pad of `demoTopo` is owned by
entity slot 0 and appears exactly once in that entity's pads list. -/
theorem C3_witness :
    ∃ j re, demoResPad0.entity = (j, re) ∧
      ∃ hj : j < demoGraph.entities.length,
        (demoGraph.entities[j]).raw = re ∧
        (demoGraph.entities[j]).pads.count (demoResPad0.idx, demoResPad0.raw) = 1 :=
  C3_pad_ownership demoTopo demoGraph (by rfl) demoResPad0 (by decide)

/-- C4: for every link of a resolved graph whose source and sink are both
pads, setting the enabled state issues exactly one setup-link ioctl; on
kernel success the in-memory flags become exactly the requested word (the
enabled bit alone, or zero); on kernel failure the exception propagates
and the in-memory flags are unchanged. -/
theorem C4_setup_updates_flags (t : Topology) (l : RawLink) (cur : Nat)
    (en ko : Bool) (g : Graph) (hg : resolve t = .ok g) (sp kp : RawPad)
    (hs : find_id t l.source_id = some (.pad sp))
    (hk : find_id t l.sink_id = some (.pad kp)) :
    (setEnabled t l cur en ko).sent.length = 1 ∧
    (ko = true → (setEnabled t l cur en ko).raised = none ∧
      (setEnabled t l cur en ko).flags = (if en then MEDIA_LNK_FL_ENABLED else 0)) ∧
    (ko = false → (setEnabled t l cur en ko).raised ≠ none ∧
      (setEnabled t l cur en ko).flags = cur) := by
  have hsp : sp ∈ t.pads := pad_mem_of_mem_objects (find_id_some hs).1
  have hkp : kp ∈ t.pads := pad_mem_of_mem_objects (find_id_some hk).1
  obtain ⟨se, hse⟩ := resolved_pad_has_entity hg hsp
  obtain ⟨ke, hke⟩ := resolved_pad_has_entity hg hkp
  unfold setEnabled setup linkSourcePad linkSinkPad
  simp only [hs, hk, hse, hke]
  cases ko <;> simp

/-- Witness for C4: toggling the demo pad-to-pad link from in-memory
flags 7 with a succeeding kernel sends one payload and stores the
requested word. -/
theorem C4_witness :
    (setEnabled demoTopo demoL0 7 true true).sent.length = 1 ∧
    (true = true → (setEnabled demoTopo demoL0 7 true true).raised = none ∧
      (setEnabled demoTopo demoL0 7 true true).flags =
        (if true then MEDIA_LNK_FL_ENABLED else 0)) ∧
    (true = false → (setEnabled demoTopo demoL0 7 true true).raised ≠ none ∧
      (setEnabled demoTopo demoL0 7 true true).flags = 7) :=
  C4_setup_updates_flags demoTopo demoL0 7 true true demoGraph (by rfl)
    demoP0 demoP1 (by decide) (by decide)

/-- C5: the typed source/sink accessors of a link fail with the
type-mismatch `RuntimeError` when the endpoint is not a `MediaPad`, and
toggling a link of a resolved graph whose endpoints are not both pads
raises that type-mismatch error with no ioctl payload issued. -/
theorem C5_type_mismatch_no_ioctl (t : Topology) (l : RawLink) (cur : Nat)
    (en ko : Bool) (g : Graph) (hg : resolve t = .ok g) :
    ((∀ p : RawPad, find_id t l.source_id ≠ some (.pad p)) →
      linkSourcePad t l = .error "Source is not a MediaPad") ∧
    ((∀ p : RawPad, find_id t l.sink_id ≠ some (.pad p)) →
      linkSinkPad t l = .error "Sink is not a MediaPad") ∧
    (((∀ p : RawPad, find_id t l.source_id ≠ some (.pad p)) ∨
      (∀ p : RawPad, find_id t l.sink_id ≠ some (.pad p))) →
      ((setEnabled t l cur en ko).raised = some "Source is not a MediaPad" ∨
       (setEnabled t l cur en ko).raised = some "Sink is not a MediaPad") ∧
      (setEnabled t l cur en ko).sent = []) := by
  have hsrc : (∀ p : RawPad, find_id t l.source_id ≠ some (.pad p)) →
      linkSourcePad t l = .error "Source is not a MediaPad" := by
    intro h
    unfold linkSourcePad
    cases hfs : find_id t l.source_id with
    | none => rfl
    | some o => cases o with
      | pad p => exact absurd hfs (h p)
      | entity e => rfl
      | iface i => rfl
      | link lk => rfl
  have hsnk : (∀ p : RawPad, find_id t l.sink_id ≠ some (.pad p)) →
      linkSinkPad t l = .error "Sink is not a MediaPad" := by
    intro h
    unfold linkSinkPad
    cases hfk : find_id t l.sink_id with
    | none => rfl
    | some o => cases o with
      | pad p => exact absurd hfk (h p)
      | entity e => rfl
      | iface i => rfl
      | link lk => rfl
  refine ⟨hsrc, hsnk, ?_⟩
  intro h
  cases hfs : find_id t l.source_id with
  | none =>
    unfold setEnabled setup linkSourcePad
    simp [hfs]
  | some o =>
    cases o with
    | pad sp =>
      have hnotsrc : ¬(∀ p : RawPad, find_id t l.source_id ≠ some (.pad p)) :=
        fun hall => hall sp hfs
      have hksnk : ∀ p : RawPad, find_id t l.sink_id ≠ some (.pad p) := by
        rcases h with h | h
        · exact absurd h hnotsrc
        · exact h
      have hsp : sp ∈ t.pads := pad_mem_of_mem_objects (find_id_some hfs).1
      obtain ⟨se, hse⟩ := resolved_pad_has_entity hg hsp
      unfold setEnabled setup linkSourcePad
      simp only [hfs]
      rw [hsnk hksnk]
      simp [hse]
    | entity e =>
      unfold setEnabled setup linkSourcePad
      simp [hfs]
    | iface i =>
      unfold setEnabled setup linkSourcePad
      simp [hfs]
    | link lk =>
      unfold setEnabled setup linkSourcePad
      simp [hfs]

/-- Witness for C5: the control link of `oneIfaceTopo` has an interface
as its source, so the typed accessor and a toggle both fail with the
type-mismatch error and no payload is sent. -/
theorem C5_witness :
    ((∀ p : RawPad, find_id oneIfaceTopo 10 ≠ some (.pad p)) →
      linkSourcePad oneIfaceTopo ⟨20, 10, 1, 0⟩ = .error "Source is not a MediaPad") ∧
    ((∀ p : RawPad, find_id oneIfaceTopo 1 ≠ some (.pad p)) →
      linkSinkPad oneIfaceTopo ⟨20, 10, 1, 0⟩ = .error "Sink is not a MediaPad") ∧
    (((∀ p : RawPad, find_id oneIfaceTopo 10 ≠ some (.pad p)) ∨
      (∀ p : RawPad, find_id oneIfaceTopo 1 ≠ some (.pad p))) →
      ((setEnabled oneIfaceTopo ⟨20, 10, 1, 0⟩ 0 true true).raised =
          some "Source is not a MediaPad" ∨
       (setEnabled oneIfaceTopo ⟨20, 10, 1, 0⟩ 0 true true).raised =
          some "Sink is not a MediaPad") ∧
      (setEnabled oneIfaceTopo ⟨20, 10, 1, 0⟩ 0 true true).sent = []) :=
  C5_type_mismatch_no_ioctl oneIfaceTopo ⟨20, 10, 1, 0⟩ 0 true true
    oneIfaceGraph (by rfl)

/-- C6 counterexample: with a sizing call reporting 3 links but a fill
call delivering only 2 link records, `__read_topology` surfaces no error
at all — it silently returns a topology padded to the sizing counts
(here with a zeroed third link record). -/
theorem C6_counterexample :
    readTopology ⟨2, 0, 2, 3⟩ fillTwoLinks =
      .ok ⟨[demoE0, demoE1], [], [demoP0, demoP1],
           [demoL0, ⟨6, 4, 3, 0⟩, zeroLink]⟩ := by
  rfl

/-- C6 (amended): the two-phase topology read performs no count
comparison: for every sizing result and every fill result it succeeds,
returning record arrays sized exactly by the sizing call's counts (fill
records truncated or zero-padded to fit) — a count mismatch is never
detected, rather than surfaced as a retryable error. -/
theorem C6_no_mismatch_check (s : TopoSizes) (f : Topology) :
    ∃ t, readTopology s f = .ok t ∧
      t.entities.length = s.num_entities ∧
      t.interfaces.length = s.num_interfaces ∧
      t.pads.length = s.num_pads ∧
      t.links.length = s.num_links := by
  refine ⟨_, rfl, ?_, ?_, ?_, ?_⟩ <;>
    simp only [fillArray, List.length_append, List.length_take,
      List.length_replicate] <;> omega

/-- C7 counterexample: for the demo pad-to-pad link starting from
in-memory flags `MEDIA_LNK_FL_ENABLED` (an already-enabled link), enable
followed by disable leaves the flags at 0, not at the pre-enable state. -/
theorem C7_counterexample :
    (setEnabled demoTopo demoL0
        (setEnabled demoTopo demoL0 MEDIA_LNK_FL_ENABLED true true).flags
        false true).flags ≠ MEDIA_LNK_FL_ENABLED := by decide

/-- C7 (amended): for every pad-to-pad link of a resolved graph and every
initial in-memory flag word, enabling then disabling (both kernel calls
succeeding) leaves the in-memory flags equal to 0 — which equals the
pre-enable state exactly when that state was 0 — and the two payloads
sent differ only in the enabled bit. -/
theorem C7_enable_disable_roundtrip (t : Topology) (l : RawLink) (cur : Nat)
    (g : Graph) (hg : resolve t = .ok g) (sp kp : RawPad)
    (hs : find_id t l.source_id = some (.pad sp))
    (hk : find_id t l.sink_id = some (.pad kp)) :
    (setEnabled t l (setEnabled t l cur true true).flags false true).flags = 0 ∧
    (cur = 0 →
      (setEnabled t l (setEnabled t l cur true true).flags false true).flags = cur) ∧
    ∃ d1 d2,
      (setEnabled t l cur true true).sent = [d1] ∧
      (setEnabled t l (setEnabled t l cur true true).flags false true).sent = [d2] ∧
      d1.source_entity = d2.source_entity ∧ d1.source_index = d2.source_index ∧
      d1.sink_entity = d2.sink_entity ∧ d1.sink_index = d2.sink_index ∧
      d1.flags = MEDIA_LNK_FL_ENABLED ∧ d2.flags = 0 := by
  have hsp : sp ∈ t.pads := pad_mem_of_mem_objects (find_id_some hs).1
  have hkp : kp ∈ t.pads := pad_mem_of_mem_objects (find_id_some hk).1
  obtain ⟨se, hse⟩ := resolved_pad_has_entity hg hsp
  obtain ⟨ke, hke⟩ := resolved_pad_has_entity hg hkp
  have hstep : ∀ (c : Nat) (en : Bool), setEnabled t l c en true =
      ⟨none, if en then MEDIA_LNK_FL_ENABLED else 0,
       [⟨se.2.id, sp.index, ke.2.id, kp.index,
         if en then MEDIA_LNK_FL_ENABLED else 0⟩]⟩ := by
    intro c en
    unfold setEnabled setup linkSourcePad linkSinkPad
    simp [hs, hk, hse, hke]
  rw [hstep, hstep]
  refine ⟨by simp, fun h => by simp [h], ?_⟩
  exact ⟨_, _, rfl, rfl, rfl, rfl, rfl, rfl, by simp, by simp⟩

/-- Witness for C7 (amended): the demo link starting from flags 0. -/
theorem C7_witness :
    (setEnabled demoTopo demoL0
        (setEnabled demoTopo demoL0 0 true true).flags false true).flags = 0 ∧
    (0 = 0 →
      (setEnabled demoTopo demoL0
          (setEnabled demoTopo demoL0 0 true true).flags false true).flags = 0) ∧
    ∃ d1 d2,
      (setEnabled demoTopo demoL0 0 true true).sent = [d1] ∧
      (setEnabled demoTopo demoL0
          (setEnabled demoTopo demoL0 0 true true).flags false true).sent = [d2] ∧
      d1.source_entity = d2.source_entity ∧ d1.source_index = d2.source_index ∧
      d1.sink_entity = d2.sink_entity ∧ d1.sink_index = d2.sink_index ∧
      d1.flags = MEDIA_LNK_FL_ENABLED ∧ d2.flags = 0 :=
  C7_enable_disable_roundtrip demoTopo demoL0 0 demoGraph (by rfl)
    demoP0 demoP1 (by decide) (by decide)

/-- C8: on the spec's scenario topology (2 entities, a source pad on the
first and a sink pad on the second, 1 pad-to-pad link, 0 interfaces) the
resolver succeeds, the link's source pad resolves to pad 0 owned by
entity slot 0, its sink pad to pad 1 owned by entity slot 1, and each
entity's `pad_links` is the singleton list holding that link. -/
theorem C8_demo_scenario :
    resolve demoTopo = .ok demoGraph ∧
    linkSourcePad demoTopo demoL0 = .ok demoP0 ∧
    findEntity demoTopo demoP0.entity_id = some (0, demoE0) ∧
    linkSinkPad demoTopo demoL0 = .ok demoP1 ∧
    findEntity demoTopo demoP1.entity_id = some (1, demoE1) ∧
    padLinks demoTopo demoE0.id = [demoL0] ∧
    padLinks demoTopo demoE1.id = [demoL0] := by
  exact ⟨by rfl, by rfl, by decide, by rfl, by decide, by decide, by decide⟩

/-- C9: on the construction path where the device-info ioctl fails after
the descriptor is opened, the close finalizer is never registered, so the
descriptor is opened once but closed zero times over the handle's
lifetime — it leaks, contradicting the exactly-once release discipline
(which does hold on the success path). -/
theorem C9_descriptor_leak_on_error :
    lifetimeOpens (mediaDeviceInit false true) = 1 ∧
    lifetimeCloses (mediaDeviceInit false true) = 0 ∧
    (mediaDeviceInit false true).ok = false ∧
    lifetimeOpens (mediaDeviceInit true false) = 1 ∧
    lifetimeCloses (mediaDeviceInit true false) = 0 ∧
    lifetimeOpens (mediaDeviceInit true true) = 1 ∧
    lifetimeCloses (mediaDeviceInit true true) = 1 := by decide

/-- C10: for every topology and integer id, `find_id` returns the unique
object bearing that id when exactly one exists, and returns `none`
(rather than raising) when no object has that id. -/
theorem C10_find_id_lookup (t : Topology) (i : Nat) :
    (∀ o : MediaObject, o ∈ objects t → o.id = i →
      (∀ o2 ∈ objects t, o2.id = i → o2 = o) → find_id t i = some o) ∧
    ((∀ o ∈ objects t, o.id ≠ i) → find_id t i = none) := by
  constructor
  · intro o hmem hid huniq
    cases hf : find_id t i with
    | none =>
      have hnone := List.find?_eq_none.mp hf o hmem
      simp [hid] at hnone
    | some o2 =>
      obtain ⟨ho2, ho2id⟩ := find_id_some hf
      rw [huniq o2 ho2 ho2id]
  · intro h
    apply List.find?_eq_none.mpr
    intro o hmem
    simp [h o hmem]

/-- Witness for C10: in `demoTopo`, id 3 finds pad 0 and id 99 finds
nothing. -/
theorem C10_witness :
    find_id demoTopo 3 = some (.pad demoP0) ∧ find_id demoTopo 99 = none := by
  constructor
  · exact (C10_find_id_lookup demoTopo 3).1 (.pad demoP0) (by decide) (by decide)
      (by decide)
  · exact (C10_find_id_lookup demoTopo 99).2 (by decide)

end PyV4L2
